import Mathlib

/-!
Verification of the Visual Decision & Segment Assembly Engine of the f1.a1
repository (src/src/image_video_assembler.py, src/src/footage_downloader.py).

Strings are modelled as lists of characters (Chars); Python float arithmetic
on durations, confidences and scores is modelled over the rationals.  Each definition
below is a direct translation of the corresponding Python function; comments
cite the source function.
-/

namespace F1

abbrev Chars := List Char

/-- ASCII uppercase test, the semantics of the regex class on A-Z. -/
def isUpperAZ (c : Char) : Bool := 'A' ≤ c && c ≤ 'Z'

/-- ASCII lowercase test, the semantics of the regex class on a-z. -/
def isLowerAZ (c : Char) : Bool := 'a' ≤ c && c ≤ 'z'

/-- ASCII lowercasing of one character, as Python str.lower acts on the
ASCII-only strings this program manipulates. -/
def lowerChar (c : Char) : Char :=
  if isUpperAZ c then Char.ofNat (c.toNat + 32) else c

/-- Python str.lower on the program's ASCII strings. -/
def lower (cs : Chars) : Chars := cs.map lowerChar

/-- Python substring containment (needle in haystack). -/
def containsSub (n : Chars) : Chars → Bool
  | [] => n.isEmpty
  | c :: rest => n.isPrefixOf (c :: rest) || containsSub n rest

/-- Split a character list at every double-quote character, as Python
str.split would; used to model the quote-detection regex scan. -/
def splitQuotes : Chars → List Chars
  | [] => [[]]
  | c :: rest =>
    let r := splitQuotes rest
    if c = '"' then [] :: r
    else
      match r with
      | [] => [[c]]
      | p :: ps => (c :: p) :: ps

/-- Python list-or (a or b): the second operand when the first is empty. -/
def pyOr (l d : List α) : List α := if l.isEmpty then d else l

-- ==========================================================================
-- F1 knowledge base (image_video_assembler.py, module constants)
-- ==========================================================================

/-- F1_DRIVERS dict of image_video_assembler.py, in insertion order. -/
def F1_DRIVERS : List (Chars × Chars) :=
  [("verstappen".data, "Max Verstappen".data), ("hamilton".data, "Lewis Hamilton".data),
   ("leclerc".data, "Charles Leclerc".data), ("norris".data, "Lando Norris".data),
   ("sainz".data, "Carlos Sainz".data), ("russell".data, "George Russell".data),
   ("perez".data, "Sergio Perez".data), ("alonso".data, "Fernando Alonso".data),
   ("stroll".data, "Lance Stroll".data), ("ocon".data, "Esteban Ocon".data),
   ("gasly".data, "Pierre Gasly".data), ("tsunoda".data, "Yuki Tsunoda".data),
   ("ricciardo".data, "Daniel Ricciardo".data), ("bottas".data, "Valtteri Bottas".data),
   ("piastri".data, "Oscar Piastri".data), ("lawson".data, "Liam Lawson".data),
   ("antonelli".data, "Kimi Antonelli".data), ("bearman".data, "Oliver Bearman".data),
   ("schumacher".data, "Michael Schumacher".data), ("senna".data, "Ayrton Senna".data),
   ("vettel".data, "Sebastian Vettel".data), ("raikkonen".data, "Kimi Raikkonen".data),
   ("wolff".data, "Toto Wolff".data), ("horner".data, "Christian Horner".data),
   ("binotto".data, "Mattia Binotto".data), ("brown".data, "Zak Brown".data),
   ("newey".data, "Adrian Newey".data), ("brawn".data, "Ross Brawn".data)]

/-- F1_TEAMS dict, in insertion order. -/
def F1_TEAMS : List (Chars × Chars) :=
  [("red bull".data, "Red Bull Racing".data), ("mercedes".data, "Mercedes F1".data),
   ("ferrari".data, "Scuderia Ferrari".data), ("mclaren".data, "McLaren F1".data),
   ("aston martin".data, "Aston Martin F1".data), ("alpine".data, "Alpine F1".data),
   ("williams".data, "Williams Racing".data), ("haas".data, "Haas F1".data),
   ("sauber".data, "Sauber F1".data), ("rb".data, "RB F1 Team".data)]

/-- FUEL_PARTNERS dict, in insertion order. -/
def FUEL_PARTNERS : List (Chars × Chars) :=
  [("aramco".data, "Saudi Aramco".data), ("shell".data, "Shell".data),
   ("petronas".data, "Petronas".data), ("mobil".data, "ExxonMobil".data),
   ("castrol".data, "Castrol".data), ("bp".data, "BP".data),
   ("gulf".data, "Gulf Oil".data)]

/-- CONCEPT_KEYWORDS list. -/
def CONCEPT_KEYWORDS : List Chars :=
  ["how".data, "why".data, "explain".data, "concept".data, "basically".data,
   "essentially".data, "fundamentally".data, "process".data, "mechanism".data,
   "chemistry".data, "physics".data, "engineering".data, "fischer-tropsch".data,
   "syngas".data, "catalyst".data, "molecule".data, "carbon capture".data,
   "efficiency".data, "thermal".data, "combustion".data, "compression ratio".data,
   "power unit".data, "mgu-h".data, "mgu-k".data, "hybrid".data]

/-- ACTION_KEYWORDS list. -/
def ACTION_KEYWORDS : List Chars :=
  ["race".data, "racing".data, "overtake".data, "crash".data, "pit stop".data,
   "start".data, "finish".data, "podium".data, "celebration".data, "onboard".data,
   "battle".data, "wheel to wheel".data, "championship".data, "victory".data,
   "dramatic".data]

/-- VEO3_KEYWORDS list. -/
def VEO3_KEYWORDS : List Chars :=
  ["future".data, "vision".data, "imagine".data, "revolution".data,
   "transformation".data, "evolution".data, "innovation".data, "breakthrough".data,
   "paradigm".data, "frontier".data, "molecular".data, "atomic".data,
   "chemical reaction".data, "synthesis".data, "production facility".data,
   "industrial".data, "manufacturing".data, "wind tunnel".data,
   "aerodynamic".data, "simulation".data]

/-- VEO3_PROMPTS dict values, named by key. -/
def VEO3_PROMPT_FUEL : Chars :=
  "Industrial fuel production facility with advanced chemistry equipment, glowing reactors, sustainable energy, futuristic laboratory".data

def VEO3_PROMPT_CARBON : Chars :=
  "Carbon capture technology visualization, CO2 molecules being absorbed, green industrial facility, environmental technology".data

def VEO3_PROMPT_ENGINE : Chars :=
  "Formula 1 power unit internal visualization, turbo spinning, energy flow through MGU-K, high-tech engineering".data

def VEO3_PROMPT_WIND : Chars :=
  "F1 car in wind tunnel, smoke particles flowing over aerodynamic bodywork, technical testing facility".data

def VEO3_PROMPT_CHEMISTRY : Chars :=
  "Chemical synthesis process visualization, molecular bonds forming, laboratory equipment, scientific innovation".data

def VEO3_PROMPT_FACTORY : Chars :=
  "High-tech F1 factory floor, carbon fiber components being manufactured, robotic precision, clean room environment".data

def VEO3_PROMPT_DATA : Chars :=
  "F1 data analysis visualization, telemetry streams, holographic displays, race strategy simulation".data

def VEO3_PROMPT_SUSTAINABLE : Chars :=
  "Sustainable energy technology, green fuel production, environmental innovation, clean energy future".data

-- ==========================================================================
-- Quote and speaker detection (detect_quote in image_video_assembler.py)
-- ==========================================================================

/-- Interior parts of a text split at its double-quote characters.  The regex
scan of a pattern of the shape quote, 20-or-more non-quotes, quote attempts
exactly these parts in left-to-right order: a failed attempt resumes at the
closing quote, which becomes the next opening quote. -/
def quote_attempts (text : Chars) : List Chars :=
  ((splitQuotes text).drop 1).dropLast

/-- Quote extraction of detect_quote: the first double-quoted span of at
least twenty characters found by the regex scan. -/
def detect_quote_span (text : Chars) : Option Chars :=
  (quote_attempts text).find? (fun p => 20 ≤ p.length)

/-- Match the regex fragment for a capitalized two-word name at the head of
the input: uppercase letter, one or more lowercase, space, uppercase, one or
more lowercase.  The lowercase runs are maximal; no backtracking can help
because a shorter run would leave a lowercase letter where the pattern next
requires a specific non-lowercase character. -/
def matchName : Chars → Option (Chars × Chars)
  | [] => none
  | c1 :: rest =>
    if isUpperAZ c1 then
      match rest.span isLowerAZ with
      | (l1, r1) =>
        if l1.isEmpty then none
        else
          match r1 with
          | ' ' :: c2 :: rest2 =>
            if isUpperAZ c2 then
              match rest2.span isLowerAZ with
              | (l2, r2) =>
                if l2.isEmpty then none
                else some (c1 :: l1 ++ ' ' :: c2 :: l2, r2)
            else none
          | _ => none
    else none

/-- Verbs of the first speaker pattern. -/
def P1_VERBS : List Chars :=
  ["said".data, "stated".data, "explained".data, "mentioned".data, "noted".data]

/-- Verbs of the second speaker pattern. -/
def P2_VERBS : List Chars := ["said".data, "stated".data, "explained".data]

/-- Tails of the third speaker pattern. -/
def P3_TAILS : List Chars := ["put it".data, "noted".data, "explained".data]

/-- Attempt speaker pattern 1 (name, space, speech verb) at one position. -/
def p1At (cs : Chars) : Option Chars :=
  match matchName cs with
  | some (nm, r) =>
    match r with
    | ' ' :: r2 => if P1_VERBS.any (fun v => v.isPrefixOf r2) then some nm else none
    | _ => none
  | none => none

/-- Attempt speaker pattern 2 (speech verb, space, name) at one position. -/
def p2At (cs : Chars) : Option Chars :=
  match P2_VERBS.find? (fun v => v.isPrefixOf cs) with
  | some v =>
    match cs.drop v.length with
    | ' ' :: r2 => (matchName r2).map (·.1)
    | _ => none
  | none => none

/-- Attempt speaker pattern 3 (literal as, name, space, tail) at one position. -/
def p3At (cs : Chars) : Option Chars :=
  if ("as ".data).isPrefixOf cs then
    match matchName (cs.drop 3) with
    | some (nm, r) =>
      match r with
      | ' ' :: r2 => if P3_TAILS.any (fun v => v.isPrefixOf r2) then some nm else none
      | _ => none
    | none => none
  else none

/-- Attempt speaker pattern 4 (literal according to, name) at one position. -/
def p4At (cs : Chars) : Option Chars :=
  if ("according to ".data).isPrefixOf cs then (matchName (cs.drop 13)).map (·.1)
  else none

/-- Leftmost-position regex search: try the single-position matcher at every
suffix, left to right. -/
def scanFor (f : Chars → Option Chars) : Chars → Option Chars
  | [] => f []
  | cs@(_ :: rest) =>
    match f cs with
    | some x => some x
    | none => scanFor f rest

/-- Speech words of the known-figure fallback in detect_quote. -/
def SPEECH_WORDS : List Chars :=
  ["said".data, "stated".data, "explained".data, "according".data]

/-- Speaker extraction of detect_quote: the four regex templates in order,
then the known-F1-figure fallback. -/
def detect_speaker (text : Chars) : Option Chars :=
  let fromPatterns :=
    match scanFor p1At text with
    | some s => some s
    | none =>
      match scanFor p2At text with
      | some s => some s
      | none =>
        match scanFor p3At text with
        | some s => some s
        | none => scanFor p4At text
  match fromPatterns with
  | some s => some s
  | none =>
    let tl := lower text
    (F1_DRIVERS.find? (fun kv =>
      containsSub kv.1 tl && SPEECH_WORDS.any (fun w => containsSub w tl))).map (·.2)

/-- detect_quote of image_video_assembler.py: returns (speaker, quote). -/
def detect_quote (text : Chars) : Option Chars × Option Chars :=
  (detect_speaker text, detect_quote_span text)

-- ==========================================================================
-- Entity detection and Veo3 prompt selection
-- ==========================================================================

/-- Result of detect_f1_entities. -/
structure Entities where
  drivers : List Chars
  teams : List Chars
  fuel_partners : List Chars
deriving DecidableEq, Repr

/-- detect_f1_entities of image_video_assembler.py. -/
def detect_f1_entities (text : Chars) : Entities :=
  let tl := lower text
  ⟨(F1_DRIVERS.filter (fun kv => containsSub kv.1 tl)).map (·.2),
   (F1_TEAMS.filter (fun kv => containsSub kv.1 tl)).map (·.2),
   (FUEL_PARTNERS.filter (fun kv => containsSub kv.1 tl)).map (·.2)⟩

/-- get_veo3_prompt of image_video_assembler.py: first matching template. -/
def get_veo3_prompt (text context : Chars) : Option Chars :=
  let tl := lower (text ++ ' ' :: context)
  if ["fuel production".data, "sustainable fuel".data, "synthetic fuel".data].any
      (fun kw => containsSub kw tl) then some VEO3_PROMPT_FUEL
  else if ["carbon capture".data, "co2".data, "carbon dioxide".data].any
      (fun kw => containsSub kw tl) then some VEO3_PROMPT_CARBON
  else if ["power unit".data, "engine".data, "mgu".data, "turbo".data].any
      (fun kw => containsSub kw tl) then some VEO3_PROMPT_ENGINE
  else if ["wind tunnel".data, "aerodynamic".data, "downforce".data].any
      (fun kw => containsSub kw tl) then some VEO3_PROMPT_WIND
  else if ["chemistry".data, "chemical".data, "molecule".data, "synthesis".data,
      "fischer-tropsch".data].any (fun kw => containsSub kw tl) then
    some VEO3_PROMPT_CHEMISTRY
  else if ["factory".data, "manufacturing".data, "production".data].any
      (fun kw => containsSub kw tl) then some VEO3_PROMPT_FACTORY
  else if ["data".data, "telemetry".data, "analysis".data, "strategy".data].any
      (fun kw => containsSub kw tl) then some VEO3_PROMPT_DATA
  else if ["sustainable".data, "green".data, "environment".data, "future".data].any
      (fun kw => containsSub kw tl) then some VEO3_PROMPT_SUSTAINABLE
  else none

-- ==========================================================================
-- Visual routing (route_visual in image_video_assembler.py)
-- ==========================================================================

/-- VisualType enum of image_video_assembler.py. -/
inductive VisualType where
  | f1_image
  | talking_head
  | youtube_clip
  | quote_overlay
  | veo3_video
deriving DecidableEq, Repr

/-- VisualDecision dataclass of image_video_assembler.py. -/
structure VisualDecision where
  primary_type : VisualType
  fallback_type : VisualType
  search_queries : List Chars
  speaker_name : Option Chars := none
  quote_text : Option Chars := none
  veo3_prompt : Option Chars := none
  confidence : ℚ := 0.8
deriving DecidableEq, Repr

/-- Input segment as route_visual reads it: the text, context and
footage_query fields, each defaulting to the empty string. -/
structure Segment where
  text : Chars
  context : Chars
  footage_query : Chars
deriving DecidableEq, Repr

/-- Combined text of route_visual: text, context and footage query joined
by single spaces. -/
def combined_text (segment : Segment) : Chars :=
  segment.text ++ ' ' :: segment.context ++ ' ' :: segment.footage_query

/-- Local search_queries of route_visual: up to two drivers, two teams, one
fuel partner, then a footage-query override that is non-empty and not a
GRAPHIC: directive. -/
def build_search_queries (segment : Segment) : List Chars :=
  ((detect_f1_entities (combined_text segment)).drivers.take 2).map
    (fun d => d ++ " F1 2024".data) ++
  ((detect_f1_entities (combined_text segment)).teams.take 2).map
    (fun t => t ++ " F1 car".data) ++
  ((detect_f1_entities (combined_text segment)).fuel_partners.take 1).map
    (fun p => p ++ " F1".data) ++
  (if ¬segment.footage_query.isEmpty ∧
      ¬("GRAPHIC:".data).isPrefixOf segment.footage_query
   then [segment.footage_query] else [])

/-- Local has_f1_content of route_visual: any entity list non-empty. -/
def has_f1_content (segment : Segment) : Bool :=
  !(detect_f1_entities (combined_text segment)).drivers.isEmpty ||
  !(detect_f1_entities (combined_text segment)).teams.isEmpty ||
  !(detect_f1_entities (combined_text segment)).fuel_partners.isEmpty

/-- Local is_concept of route_visual. -/
def is_concept (segment : Segment) : Bool :=
  CONCEPT_KEYWORDS.any (fun kw => containsSub kw (lower (combined_text segment)))

/-- Local is_action of route_visual. -/
def is_action (segment : Segment) : Bool :=
  ACTION_KEYWORDS.any (fun kw => containsSub kw (lower (combined_text segment)))

/-- Local is_veo3_suitable of route_visual. -/
def is_veo3_suitable (segment : Segment) : Bool :=
  VEO3_KEYWORDS.any (fun kw => containsSub kw (lower (combined_text segment)))

/-- Prompt of the veo3 branch of route_visual: the branch returns a
decision exactly when its guard holds and a prompt template matches;
otherwise Python falls through to the remaining checks. -/
def veo3_branch_prompt (segment : Segment) (use_veo3 : Bool) : Option Chars :=
  if use_veo3 && is_veo3_suitable segment && !has_f1_content segment
  then get_veo3_prompt segment.text segment.context else none

/-- Branches of route_visual after the quote check, in source order. -/
def route_visual_nonquote (segment : Segment) (use_veo3 : Bool) : VisualDecision :=
  match veo3_branch_prompt segment use_veo3 with
  | some vp =>
    ⟨VisualType.veo3_video, VisualType.talking_head,
     pyOr (build_search_queries segment) ["F1 technology".data],
     none, none, some vp, 0.85⟩
  | none =>
    if is_action segment && has_f1_content segment then
      ⟨VisualType.youtube_clip, VisualType.f1_image,
       pyOr (build_search_queries segment) ["F1 ".data ++ segment.context],
       none, none, none, 0.85⟩
    else if has_f1_content segment && !is_concept segment then
      ⟨VisualType.f1_image, VisualType.talking_head,
       pyOr (build_search_queries segment) ["F1 ".data ++ segment.context],
       none, none, none, 0.9⟩
    else if is_concept segment then
      ⟨VisualType.talking_head,
       (match (if use_veo3 then get_veo3_prompt segment.text segment.context
               else none) with
        | some _ => VisualType.veo3_video
        | none => VisualType.f1_image),
       pyOr (build_search_queries segment)
         ["F1 technology".data, "motorsport engineering".data],
       none, none,
       (if use_veo3 then get_veo3_prompt segment.text segment.context else none),
       0.8⟩
    else
      ⟨VisualType.f1_image, VisualType.talking_head,
       pyOr (build_search_queries segment) ["Formula 1 racing".data, "F1 car".data],
       none, none, none, 0.6⟩

/-- route_visual of image_video_assembler.py: the quote check first, then
the entity and keyword branches in source order. -/
def route_visual (segment : Segment) (use_veo3 : Bool) : VisualDecision :=
  match detect_quote segment.text with
  | (some speaker, some quote) =>
    ⟨VisualType.quote_overlay, VisualType.f1_image,
     [speaker ++ " F1".data, speaker ++ " portrait".data],
     some speaker, some quote, none, 0.95⟩
  | _ => route_visual_nonquote segment use_veo3

-- ==========================================================================
-- Clip composition (create_segment_video in image_video_assembler.py)
-- ==========================================================================

/-- MAX_CLIP_DURATION constant. -/
def MAX_CLIP_DURATION : ℚ := 5

/-- CROSSFADE_DURATION constant. -/
def CROSSFADE_DURATION : ℚ := 1/2

/-- Python int() on a rational: truncation toward zero. -/
def truncQ (q : ℚ) : ℤ := if q < 0 then ⌈q⌉ else ⌊q⌋

/-- Number of clips planned by create_segment_video:
max(2, int(audio_duration / MAX_CLIP_DURATION) + 1). -/
def num_clips (d : ℚ) : ℕ := max 2 (truncQ (d / MAX_CLIP_DURATION) + 1).toNat

/-- Per-clip duration: audio_duration / num_clips. -/
def clip_duration (d : ℚ) : ℚ := d / num_clips d

/-- Durations assigned to the clips of one segment: clip i gets
clip_duration while i < num_clips - 1, and the final clip gets
audio_duration - clip_idx * clip_duration. -/
def shot_durations (d : ℚ) : List ℚ :=
  (List.range (num_clips d)).map (fun i =>
    if i < num_clips d - 1 then clip_duration d else d - i * clip_duration d)

/-- Crossfade duration used between clips: min(CROSSFADE_DURATION,
clip_duration / 4). -/
def xfade_duration (d : ℚ) : ℚ := min CROSSFADE_DURATION (clip_duration d / 4)

/-- Cumulative xfade offsets built left to right: the first offset is
cur = clip_duration - xfade, and each later transition adds
clip_duration - xfade to the running offset. -/
def offsets_from (step : ℚ) : ℚ → ℕ → List ℚ
  | _, 0 => []
  | cur, Nat.succ k => cur :: offsets_from step (cur + step) k

/-- Transition offsets of the xfade filter chain of create_segment_video:
num_clips - 1 transitions with the running-offset recurrence. -/
def xfade_offsets (d : ℚ) : List ℚ :=
  offsets_from (clip_duration d - xfade_duration d)
    (clip_duration d - xfade_duration d) (num_clips d - 1)

-- ==========================================================================
-- Per-process rate limiter (image_video_assembler.py globals)
-- ==========================================================================

/-- The two image-search providers of image_video_assembler.py. -/
inductive Provider where
  | pexels
  | unsplash
deriving DecidableEq, Repr

/-- API_RATE_LIMIT_DELAY constant. -/
def API_RATE_LIMIT_DELAY : ℚ := 1/2

/-- The module-global _LAST_API_CALL timestamp.  Both search_images_pexels
and search_images_unsplash read and write this single shared variable. -/
structure ApiState where
  lastApiCall : ℚ
deriving DecidableEq, Repr

/-- Sleep computed by the rate-limiting block shared verbatim by
search_images_pexels and search_images_unsplash: elapsed = now - last;
sleep API_RATE_LIMIT_DELAY - elapsed when elapsed is below the delay. -/
def rate_limit_wait (st : ApiState) (now : ℚ) : ℚ :=
  let elapsed := now - st.lastApiCall
  if elapsed < API_RATE_LIMIT_DELAY then API_RATE_LIMIT_DELAY - elapsed else 0

/-- Assignment _LAST_API_CALL = time.time() performed just before the
network request in either search function. -/
def record_api_call (_ : ApiState) (now : ℚ) : ApiState := ⟨now⟩

/-- Wait computed before a call to the given provider.  The provider
argument is unused because both Python functions consult the same global
_LAST_API_CALL; this is exactly the behaviour under scrutiny. -/
def provider_wait (_ : Provider) (st : ApiState) (now : ℚ) : ℚ :=
  rate_limit_wait st now

/-- Per-provider limiter state as the spec describes it: one
last_call_timestamp for each provider, independent of the others. -/
structure PerProviderState where
  lastCall : Provider → Option ℚ

/-- Modelled from the spec: the wait a per-provider limiter would impose,
depending only on that provider's own last_call_timestamp. -/
def spec_provider_wait (p : Provider) (st : PerProviderState) (now : ℚ) : ℚ :=
  match st.lastCall p with
  | none => 0
  | some t => if now - t < API_RATE_LIMIT_DELAY then API_RATE_LIMIT_DELAY - (now - t) else 0

-- ==========================================================================
-- Image search error handling (search_images_pexels)
-- ==========================================================================

/-- Outcome of one search call: whether the network request was issued, and
the url list returned to the caller. -/
structure SearchOutcome where
  networkCalled : Bool
  urls : List Chars
deriving DecidableEq, Repr

/-- Accumulation of photo urls inside the try block of search_images_pexels:
each element of the decoded photos array either yields its url field, or is
malformed, raising at that point; the except handler then returns the urls
accumulated so far. -/
def collect_urls : List (Option Chars) → List Chars
  | [] => []
  | some u :: rest => u :: collect_urls rest
  | none :: _ => []

/-- search_images_pexels of image_video_assembler.py, over an oracle for the
network: api_key is the credential lookup result; response is none when the
request, read or JSON decode raises, and otherwise carries the decoded
photos array, each photo either providing its url field or malformed.  The
process cache, consulted before all of this, is elided (a cache hit returns
the cached list and is outside every claim proved here). -/
def search_images_pexels (api_key : Option Chars)
    (response : Option (List (Option Chars))) : SearchOutcome :=
  match api_key with
  | none => ⟨false, []⟩
  | some _ =>
    match response with
    | none => ⟨true, []⟩
    | some photos => ⟨true, collect_urls photos⟩

-- ==========================================================================
-- YouTube candidate scoring and search (footage_downloader.py)
-- ==========================================================================

/-- OFFICIAL_CHANNELS list of footage_downloader.py. -/
def OFFICIAL_CHANNELS : List Chars :=
  ["FORMULA 1".data, "Formula 1".data, "F1".data, "Sky Sports F1".data,
   "Red Bull Racing".data, "Mercedes-AMG PETRONAS F1 Team".data,
   "Scuderia Ferrari".data, "McLaren".data, "Aston Martin Aramco F1 Team".data,
   "BWT Alpine F1 Team".data, "Williams Racing".data]

/-- GOOD_KEYWORDS list of footage_downloader.py. -/
def GOOD_KEYWORDS : List Chars :=
  ["highlights".data, "onboard".data, "race edit".data, "best moments".data,
   "compilation".data, "season review".data, "battle".data, "overtake".data,
   "pit stop".data, "start".data, "finish".data, "podium".data, "top 10".data,
   "pole lap".data, "fastest lap".data, "crash".data, "incident".data,
   "qualifying".data, "sprint".data, "team radio".data]

/-- BAD_KEYWORDS list of footage_downloader.py. -/
def BAD_KEYWORDS : List Chars :=
  ["interview".data, "press conference".data, "reaction".data, "reacts".data,
   "podcast".data, "explained".data, "breakdown".data, "analysis".data,
   "vlog".data, "behind the scenes".data, "documentary".data, "full race".data,
   "live stream".data, "watch along".data, "my thoughts".data, "opinion".data,
   "review".data, "preview".data, "prediction".data]

/-- Unclamped running score of score_result: base 0.5, one 0.25 official
boost, 0.08 per matched good keyword, minus 0.25 per matched bad keyword. -/
def score_raw (title channel : Chars) : ℚ :=
  (if OFFICIAL_CHANNELS.any (fun o => containsSub (lower o) (lower channel))
   then (1:ℚ)/2 + 1/4 else 1/2)
    + (2/25) * ((GOOD_KEYWORDS.filter (fun g => containsSub g (lower title))).length : ℚ)
    - (1/4) * ((BAD_KEYWORDS.filter (fun b => containsSub b (lower title))).length : ℚ)

/-- score_result of footage_downloader.py: the running score clamped into
the unit interval by max(0, min(1, score)). -/
def score_result (title channel : Chars) : ℚ :=
  max 0 (min 1 (score_raw title channel))

/-- One parsed search result of search_youtube_enhanced. -/
structure YtVideo where
  title : Chars
  vid : Chars
  channel : Chars
  vduration : Chars
  score : ℚ
  is_official : Bool
deriving DecidableEq, Repr

/-- Field separator of the yt-dlp print template. -/
def YT_SEP : Chars := "|||".data

/-- Split at the first occurrence of a non-empty separator, returning the
parts before and after it, as Python str.split does step by step. -/
def break_on (sep : Chars) : Chars → Option (Chars × Chars)
  | [] => none
  | c :: rest =>
    if sep.isPrefixOf (c :: rest) then some ([], (c :: rest).drop sep.length)
    else
      match break_on sep rest with
      | some (b, a) => some (c :: b, a)
      | none => none

/-- Fuelled splitting loop for a multi-character separator. -/
def split_aux (sep : Chars) : ℕ → Chars → List Chars
  | 0, cs => [cs]
  | Nat.succ fuel, cs =>
    match break_on sep cs with
    | none => [cs]
    | some (b, a) => b :: split_aux sep fuel a

/-- Python str.split on a non-empty separator. -/
def split_on_sep (sep cs : Chars) : List Chars := split_aux sep cs.length cs

/-- Processing of one stdout line of search_youtube_enhanced: skip lines
without the separator, require at least four fields, score, and discard
results under 0.2. -/
def yt_parse_line (line : Chars) : Option YtVideo :=
  if containsSub YT_SEP line then
    match split_on_sep YT_SEP line with
    | t :: i :: c :: du :: _ =>
      if score_result t c < 1/5 then none
      else
        some ⟨t, i, c, du, score_result t c,
              OFFICIAL_CHANNELS.any (fun o => containsSub (lower o) (lower c))⟩
    | _ => none
  else none

/-- search_youtube_enhanced of footage_downloader.py, over the lines of the
yt-dlp subprocess stdout (a failed or empty run yields one junk line): each
line is parsed and scored, and the survivors are sorted best-first by score
(a stable sort, as Python list.sort).  The query enhancement step only
shapes the subprocess invocation and is elided.  This models the
stdout-parsing stage only: the Python function has no try/except, and the
subprocess launch itself can raise (for example when yt-dlp is not
installed), an error path outside this lines oracle. -/
def search_youtube_enhanced (lines : List Chars) : List YtVideo :=
  (lines.filterMap yt_parse_line).mergeSort (fun a b => b.score ≤ a.score)

-- ==========================================================================
-- Definitions following the spec wording, for refinement comparisons
-- ==========================================================================

/-- Modelled from the spec: target shot count max(2, ceil(d / 5)). -/
def spec_num_shots (d : ℚ) : ℕ := max 2 (⌈d / MAX_CLIP_DURATION⌉).toNat

/-- Closed double-quoted spans of a text under the usual non-overlapping
pairing of quote marks: the odd-indexed parts of the quote split, excluding
an unclosed trailing part. -/
def paired_quote_spans (text : Chars) : List Chars :=
  (((splitQuotes text).dropLast).enum.filter (fun x => x.1 % 2 = 1)).map (·.2)

/-- Modelled from the spec: the longest double-quoted span of at least
twenty characters, earliest span winning ties. -/
def spec_longest_quote (text : Chars) : Option Chars :=
  ((paired_quote_spans text).filter (fun p => 20 ≤ p.length)).foldl
    (fun acc s =>
      match acc with
      | none => some s
      | some m => if m.length < s.length then some s else some m)
    none

-- ==========================================================================
-- Concrete inputs used by the scenario witnesses and counterexamples
-- ==========================================================================

/-- Segment text of the quotation scenario in the spec. -/
def HAMILTON_TEXT : Chars :=
  "\"We pushed the car to its limit,\" said Lewis Hamilton.".data

/-- Segment carrying the quotation-scenario text, with empty context and
footage query. -/
def HAMILTON_SEGMENT : Segment := ⟨HAMILTON_TEXT, [], []⟩

/-- Text with a first quoted span of twenty characters followed by a longer
quoted span of thirty characters. -/
def TWO_QUOTES_TEXT : Chars :=
  "\"AAAAAAAAAAAAAAAAAAAA\" and \"BBBBBBBBBBBBBBBBBBBBBBBBBBBBBB\"".data

-- ==========================================================================
-- Helper lemmas
-- ==========================================================================

/-- Routing when a speaker and a quote were both detected: the quote branch
of route_visual fires before all entity and keyword checks. -/
lemma route_quote_case (segment : Segment) (v : Bool) (sp q : Chars)
    (hs : (detect_quote segment.text).1 = some sp)
    (hq : (detect_quote segment.text).2 = some q) :
    route_visual segment v =
      ⟨VisualType.quote_overlay, VisualType.f1_image,
       [sp ++ " F1".data, sp ++ " portrait".data], some sp, some q, none, 0.95⟩ := by
  have h : detect_quote segment.text = (some sp, some q) := Prod.ext hs hq
  simp only [route_visual, h]

/-- A Python list-or with a non-empty default is non-empty. -/
lemma pyOr_ne_nil {α : Type} (l d : List α) (hd : d ≠ []) : pyOr l d ≠ [] := by
  unfold pyOr
  split
  · exact hd
  · rename_i h
    intro hl
    rw [hl] at h
    simp at h

/-- Sum of a constant-valued map over a range. -/
lemma sum_map_const_range (m : ℕ) (c : ℚ) :
    ((List.range m).map (fun _ => c)).sum = m * c := by
  induction m with
  | zero => simp
  | succ k ih =>
    rw [List.range_succ, List.map_append, List.sum_append, ih]
    push_cast
    simp
    ring

/-- Unfolding equation of the running-offset recursion. -/
lemma offsets_from_succ (step cur : ℚ) (k : ℕ) :
    offsets_from step cur (k + 1) = cur :: offsets_from step (cur + step) k := rfl

/-- The running-offset lists of create_segment_video are strictly
increasing when the per-step increment is positive. -/
lemma chain_offsets_from (step : ℚ) (h : 0 < step) :
    ∀ (k : ℕ) (cur : ℚ), List.Chain' (· < ·) (offsets_from step cur k) := by
  intro k
  induction k with
  | zero => intro cur; simp [offsets_from]
  | succ n ih =>
    intro cur
    cases n with
    | zero => simp [offsets_from]
    | succ m =>
      have hih := ih (cur + step)
      rw [offsets_from_succ] at hih
      rw [offsets_from_succ, offsets_from_succ]
      rw [List.chain'_cons]
      exact ⟨lt_add_of_pos_right cur h, hih⟩

/-- Closed form of the last running offset. -/
lemma getLast_offsets_from (step : ℚ) :
    ∀ (k : ℕ) (cur : ℚ),
      (offsets_from step cur (k + 1)).getLast? = some (cur + k * step) := by
  intro k
  induction k with
  | zero => intro cur; simp [offsets_from]
  | succ m ih =>
    intro cur
    rw [offsets_from_succ, offsets_from_succ, List.getLast?_cons_cons,
      ← offsets_from_succ, ih]
    congr 1
    push_cast
    ring

/-- Characterization of a successful find?: the found element satisfies the
predicate and everything strictly before it fails it. -/
lemma find?_eq_some_split {α : Type} (p : α → Bool) (l : List α) (a : α)
    (h : l.find? p = some a) :
    p a = true ∧ ∃ l1 l2, l = l1 ++ a :: l2 ∧ ∀ x ∈ l1, p x = false := by
  induction l with
  | nil => simp [List.find?] at h
  | cons b bs ih =>
    rw [List.find?_cons] at h
    cases hpb : p b with
    | true =>
      rw [hpb] at h
      simp only [Option.some.injEq] at h
      subst h
      exact ⟨hpb, [], bs, rfl, by simp⟩
    | false =>
      rw [hpb] at h
      obtain ⟨hpa, l1, l2, heq, hall⟩ := ih h
      exact ⟨hpa, b :: l1, l2, by rw [heq, List.cons_append], by
        intro x hx
        rcases List.mem_cons.mp hx with hxb | hx1
        · rw [hxb]; exact hpb
        · exact hall x hx1⟩

-- ==========================================================================
-- C1: quote with identified speaker routes to the quotation card
-- ==========================================================================

/-- C1: for every segment whose text yields a detected quote and an
identified speaker, route_visual returns the quotation-card decision with
fallback f1_image, speaker-portrait queries and confidence exactly 0.95,
regardless of entities or action/concept keywords in the text. -/
theorem route_quote_overlay_confidence (segment : Segment) (v : Bool) (sp q : Chars)
    (hs : (detect_quote segment.text).1 = some sp)
    (hq : (detect_quote segment.text).2 = some q) :
    route_visual segment v =
      ⟨VisualType.quote_overlay, VisualType.f1_image,
       [sp ++ " F1".data, sp ++ " portrait".data], some sp, some q, none, 0.95⟩ :=
  route_quote_case segment v sp q hs hq

/-- Witness for C1 at the Hamilton scenario segment. -/
theorem route_quote_overlay_confidence_witness :
    (detect_quote HAMILTON_SEGMENT.text).1 = some "Lewis Hamilton".data ∧
    (detect_quote HAMILTON_SEGMENT.text).2 = some "We pushed the car to its limit,".data ∧
    route_visual HAMILTON_SEGMENT true =
      ⟨VisualType.quote_overlay, VisualType.f1_image,
       ["Lewis Hamilton".data ++ " F1".data, "Lewis Hamilton".data ++ " portrait".data],
       some "Lewis Hamilton".data, some "We pushed the car to its limit,".data,
       none, 0.95⟩ :=
  ⟨by decide, by decide,
   route_quote_overlay_confidence HAMILTON_SEGMENT true
     "Lewis Hamilton".data "We pushed the car to its limit,".data
     (by decide) (by decide)⟩

-- ==========================================================================
-- C2: planned shot count versus the spec's ceiling formula
-- ==========================================================================

/-- C2 counterexample: at target duration 10 the code plans
max(2, int(10/5) + 1) = 3 shots while the spec formula max(2, ceil(10/5))
gives 2, so the claimed equality fails. -/
theorem num_clips_ten_ne_spec :
    num_clips 10 = 3 ∧ spec_num_shots 10 = 2 ∧ num_clips 10 ≠ spec_num_shots 10 := by
  have h1 : num_clips 10 = 3 := by
    unfold num_clips truncQ MAX_CLIP_DURATION
    norm_num
    decide
  have h2 : spec_num_shots 10 = 2 := by
    unfold spec_num_shots MAX_CLIP_DURATION
    norm_num
  exact ⟨h1, h2, by rw [h1, h2]; omega⟩

/-- C2 amended: the planned shot count is max(2, floor(d/5) + 1), which
agrees with the spec's max(2, ceil(d/5)) for every positive duration that is
not an exact multiple of the 5-second cap; at d = 13 this gives 3 shots of
13/3 seconds each. -/
theorem num_clips_eq_spec_off_multiples :
    (∀ d : ℚ, 0 < d → ((⌊d / 5⌋ : ℚ) ≠ d / 5) → num_clips d = spec_num_shots d) ∧
    num_clips 13 = 3 ∧ clip_duration 13 = 13 / 3 ∧
    shot_durations 13 = [13 / 3, 13 / 3, 13 / 3] := by
  have hn13 : num_clips 13 = 3 := by
    unfold num_clips truncQ MAX_CLIP_DURATION
    norm_num
    decide
  refine ⟨?_, hn13, ?_, ?_⟩
  · intro d hd hne
    unfold num_clips spec_num_shots truncQ MAX_CLIP_DURATION
    have h5 : ¬(d / 5 < 0) := not_lt.mpr (by positivity)
    rw [if_neg h5]
    have hceil : ⌈d / 5⌉ = ⌊d / 5⌋ + 1 := by
      have h1 : ⌈d / 5⌉ ≤ ⌊d / 5⌋ + 1 := Int.ceil_le_floor_add_one _
      have h2 : ⌊d / 5⌋ < ⌈d / 5⌉ :=
        Int.lt_ceil.mpr (lt_of_le_of_ne (Int.floor_le _) hne)
      omega
    rw [hceil]
  · unfold clip_duration
    rw [hn13]
    norm_num
  · have hc13 : clip_duration 13 = 13 / 3 := by
      unfold clip_duration
      rw [hn13]
      norm_num
    unfold shot_durations
    rw [hn13, hc13]
    norm_num [List.range_succ]

/-- Witness for C2 amended at d = 13, which is not a multiple of 5. -/
theorem num_clips_eq_spec_off_multiples_witness :
    (0 : ℚ) < 13 ∧ ((⌊(13 : ℚ) / 5⌋ : ℚ) ≠ 13 / 5) ∧ num_clips 13 = spec_num_shots 13 :=
  ⟨by norm_num, by norm_num,
   num_clips_eq_spec_off_multiples.1 13 (by norm_num) (by norm_num)⟩

-- ==========================================================================
-- C3: shot durations sum exactly to the target duration
-- ==========================================================================

/-- C3: for every target duration the planned shot durations, d/n for every
non-final shot and d minus the preceding total for the final shot, sum to
the target exactly, hence within the 1e-6 tolerance. -/
theorem shot_durations_sum_eq (d : ℚ) :
    (shot_durations d).sum = d ∧ |(shot_durations d).sum - d| ≤ 1 / 1000000 := by
  have hsum : (shot_durations d).sum = d := by
    unfold shot_durations
    obtain ⟨m, hm⟩ : ∃ m, num_clips d = m + 1 := by
      have h2 : 2 ≤ num_clips d := le_max_left _ _
      exact ⟨num_clips d - 1, by omega⟩
    rw [hm, List.range_succ, List.map_append, List.sum_append]
    have hmap : (List.range m).map
        (fun i => if i < m + 1 - 1 then clip_duration d else d - i * clip_duration d) =
        (List.range m).map (fun _ => clip_duration d) := by
      apply List.map_congr_left
      intro i hi
      have hilt : i < m + 1 - 1 := by
        have := List.mem_range.mp hi
        omega
      rw [if_pos hilt]
    rw [hmap, sum_map_const_range]
    simp only [List.map_cons, List.map_nil, List.sum_cons, List.sum_nil]
    rw [if_neg (by omega)]
    ring
  exact ⟨hsum, by rw [hsum]; norm_num⟩

-- ==========================================================================
-- C7: crossfade offsets are strictly increasing and fit the duration
-- ==========================================================================

/-- C7: for every positive target duration, the left-to-right cumulative
crossfade offsets of the composition are strictly increasing, and the final
offset plus the crossfade duration is at most the target duration. -/
theorem xfade_offsets_mono_bounded (d : ℚ) (hd : 0 < d) :
    List.Chain' (· < ·) (xfade_offsets d) ∧
    ∀ l ∈ (xfade_offsets d).getLast?, l + xfade_duration d ≤ d := by
  have hn2 : 2 ≤ num_clips d := le_max_left _ _
  have hn0 : (0 : ℚ) < (num_clips d : ℚ) := by
    have : (0 : ℕ) < num_clips d := by omega
    exact_mod_cast this
  have hc : 0 < clip_duration d := div_pos hd hn0
  have hx : 0 < xfade_duration d := by
    unfold xfade_duration CROSSFADE_DURATION
    exact lt_min (by norm_num) (by positivity)
  have hxc : xfade_duration d < clip_duration d :=
    lt_of_le_of_lt (min_le_right _ _) (by linarith)
  have hstep : 0 < clip_duration d - xfade_duration d := by linarith
  constructor
  · exact chain_offsets_from _ hstep _ _
  · intro l hl
    obtain ⟨m, hm⟩ : ∃ m, num_clips d - 1 = m + 1 := ⟨num_clips d - 2, by omega⟩
    unfold xfade_offsets at hl
    rw [hm, getLast_offsets_from] at hl
    simp only [Option.mem_def, Option.some.injEq] at hl
    have hd2 : d = ((m : ℚ) + 2) * clip_duration d := by
      have hmn : (num_clips d : ℚ) = (m : ℚ) + 2 := by
        have h' : num_clips d = m + 2 := by omega
        rw [h']
        push_cast
        ring
      rw [← hmn]
      unfold clip_duration
      field_simp
    have hmx : (0 : ℚ) ≤ (m : ℚ) * xfade_duration d :=
      mul_nonneg (Nat.cast_nonneg m) hx.le
    rw [← hl]
    nlinarith [hmx, hc, hx, hd2]

/-- Witness for C7 at d = 13. -/
theorem xfade_offsets_mono_bounded_witness :
    (0 : ℚ) < 13 ∧
    (List.Chain' (· < ·) (xfade_offsets 13) ∧
     ∀ l ∈ (xfade_offsets 13).getLast?, l + xfade_duration 13 ≤ 13) :=
  ⟨by norm_num, xfade_offsets_mono_bounded 13 (by norm_num)⟩

-- ==========================================================================
-- C4: the rate limiter clock is shared across providers, not per provider
-- ==========================================================================

/-- C4 counterexample: after a Pexels network call at time 100 the code makes
an Unsplash call at time 100.2 wait 0.3 seconds, because both functions
consult the one global _LAST_API_CALL; a per-provider limiter would impose
no wait on Unsplash, which was never called. -/
theorem rate_limiter_not_per_provider_cex :
    provider_wait Provider.unsplash (record_api_call ⟨0⟩ 100) (100 + 1/5) = 3/10 ∧
    spec_provider_wait Provider.unsplash
      ⟨fun p => match p with
                | Provider.pexels => some 100
                | Provider.unsplash => none⟩ (100 + 1/5) = 0 ∧
    (3/10 : ℚ) ≠ 0 := by
  refine ⟨?_, ?_, by norm_num⟩
  · unfold provider_wait rate_limit_wait record_api_call API_RATE_LIMIT_DELAY
    norm_num
  · unfold spec_provider_wait
    norm_num

/-- C4 amended: the minimum inter-call interval is enforced through one
process-global timestamp shared by every provider: the wait computed before
a call to any provider equals the wait before a call to any other provider,
and after a call to any backend at time t, a call to any backend within the
delay window waits exactly the remainder of the interval. -/
theorem rate_limiter_shared_clock (p q : Provider) (st : ApiState) (t now : ℚ)
    (h : now - t < API_RATE_LIMIT_DELAY) :
    provider_wait p (record_api_call st t) now =
      provider_wait q (record_api_call st t) now ∧
    provider_wait p (record_api_call st t) now = API_RATE_LIMIT_DELAY - (now - t) ∧
    0 < provider_wait p (record_api_call st t) now := by
  unfold provider_wait rate_limit_wait record_api_call at *
  refine ⟨rfl, ?_, ?_⟩
  · simp only [if_pos h]
  · simp only [if_pos h]
    unfold API_RATE_LIMIT_DELAY at h ⊢
    linarith

/-- Witness for C4 amended: a Pexels call at time 100 delays an Unsplash
call at time 100.2. -/
theorem rate_limiter_shared_clock_witness :
    ((100 + 1/5 : ℚ) - 100 < API_RATE_LIMIT_DELAY) ∧
    (provider_wait Provider.unsplash (record_api_call ⟨0⟩ 100) (100 + 1/5) =
       provider_wait Provider.pexels (record_api_call ⟨0⟩ 100) (100 + 1/5) ∧
     provider_wait Provider.unsplash (record_api_call ⟨0⟩ 100) (100 + 1/5) =
       API_RATE_LIMIT_DELAY - ((100 + 1/5) - 100) ∧
     0 < provider_wait Provider.unsplash (record_api_call ⟨0⟩ 100) (100 + 1/5)) :=
  ⟨by unfold API_RATE_LIMIT_DELAY; norm_num,
   rate_limiter_shared_clock Provider.unsplash Provider.pexels ⟨0⟩ 100 (100 + 1/5)
     (by unfold API_RATE_LIMIT_DELAY; norm_num)⟩

-- ==========================================================================
-- C5: the fallback of the quotation branch
-- ==========================================================================

/-- C5 counterexample: on the Hamilton quotation segment the routing
decision's fallback strategy is f1_image (static image), not the
youtube_clip reference-footage strategy the claim names. -/
theorem quote_fallback_not_reference_cex :
    (detect_quote HAMILTON_TEXT).1.isSome = true ∧
    (detect_quote HAMILTON_TEXT).2.isSome = true ∧
    (route_visual HAMILTON_SEGMENT true).fallback_type = VisualType.f1_image ∧
    (route_visual HAMILTON_SEGMENT true).fallback_type ≠ VisualType.youtube_clip := by
  refine ⟨by decide, by decide, ?_, ?_⟩
  · rw [route_quote_case HAMILTON_SEGMENT true
      "Lewis Hamilton".data "We pushed the car to its limit,".data
      (by decide) (by decide)]
  · rw [route_quote_case HAMILTON_SEGMENT true
      "Lewis Hamilton".data "We pushed the car to its limit,".data
      (by decide) (by decide)]
    decide

/-- C5 amended: for every segment with a detected quote and identified
speaker, the routing decision's fallback strategy is f1_image, the
static-image-with-motion strategy. -/
theorem quote_fallback_static_image (segment : Segment) (v : Bool) (sp q : Chars)
    (hs : (detect_quote segment.text).1 = some sp)
    (hq : (detect_quote segment.text).2 = some q) :
    (route_visual segment v).fallback_type = VisualType.f1_image := by
  rw [route_quote_case segment v sp q hs hq]

/-- Witness for C5 amended at the Hamilton scenario segment. -/
theorem quote_fallback_static_image_witness :
    (detect_quote HAMILTON_SEGMENT.text).1 = some "Lewis Hamilton".data ∧
    (detect_quote HAMILTON_SEGMENT.text).2 = some "We pushed the car to its limit,".data ∧
    (route_visual HAMILTON_SEGMENT true).fallback_type = VisualType.f1_image :=
  ⟨by decide, by decide,
   quote_fallback_static_image HAMILTON_SEGMENT true
     "Lewis Hamilton".data "We pushed the car to its limit,".data
     (by decide) (by decide)⟩

-- ==========================================================================
-- C6: effect of one more undesirable keyword on the candidate score
-- ==========================================================================

/-- C6 counterexample: on an official channel, a title matching five good
keywords scores raw 1.15, clamped to 1; appending one new bad keyword
(interview), with the matched good keywords unchanged, gives 0.9 - a
decrease of 0.1, not 0.25, because the original score sat above the upper
clamp. -/
theorem score_upper_clamp_cex :
    score_result "highlights onboard battle overtake pit stop".data "FORMULA 1".data = 1 ∧
    score_result "highlights onboard battle overtake pit stop interview".data
      "FORMULA 1".data = 9/10 ∧
    (GOOD_KEYWORDS.filter (fun g => containsSub g
        (lower "highlights onboard battle overtake pit stop interview".data))) =
      (GOOD_KEYWORDS.filter (fun g => containsSub g
        (lower "highlights onboard battle overtake pit stop".data))) ∧
    (BAD_KEYWORDS.filter (fun b => containsSub b
        (lower "highlights onboard battle overtake pit stop interview".data))).length =
      (BAD_KEYWORDS.filter (fun b => containsSub b
        (lower "highlights onboard battle overtake pit stop".data))).length + 1 ∧
    score_result "highlights onboard battle overtake pit stop".data "FORMULA 1".data -
      score_result "highlights onboard battle overtake pit stop interview".data
        "FORMULA 1".data ≠ 1/4 := by
  have hoff : (OFFICIAL_CHANNELS.any (fun o =>
      containsSub (lower o) (lower "FORMULA 1".data))) = true := by decide
  have hg1 : (GOOD_KEYWORDS.filter (fun g => containsSub g
      (lower "highlights onboard battle overtake pit stop".data))).length = 5 := by decide
  have hb1 : (BAD_KEYWORDS.filter (fun b => containsSub b
      (lower "highlights onboard battle overtake pit stop".data))).length = 0 := by decide
  have hg2 : (GOOD_KEYWORDS.filter (fun g => containsSub g
      (lower "highlights onboard battle overtake pit stop interview".data))).length = 5 := by
    decide
  have hb2 : (BAD_KEYWORDS.filter (fun b => containsSub b
      (lower "highlights onboard battle overtake pit stop interview".data))).length = 1 := by
    decide
  have hs1 : score_result "highlights onboard battle overtake pit stop".data
      "FORMULA 1".data = 1 := by
    unfold score_result score_raw
    rw [hoff, hg1, hb1]
    norm_num
  have hs2 : score_result "highlights onboard battle overtake pit stop interview".data
      "FORMULA 1".data = 9/10 := by
    unfold score_result score_raw
    rw [hoff, hg2, hb2]
    norm_num
  exact ⟨hs1, hs2, by decide, by rw [hb1, hb2], by rw [hs1, hs2]; norm_num⟩

/-- C6 amended: with the matched good keywords unchanged and exactly one
more matched bad keyword, the unclamped score decreases by exactly 0.25;
the returned clamped score never increases, and it decreases by exactly
0.25 precisely when the original unclamped score already lay within the
clamping bounds shifted by the penalty, that is between 0.25 and 1. -/
theorem score_bad_keyword_penalty (t t' c : Chars)
    (hg : (GOOD_KEYWORDS.filter (fun g => containsSub g (lower t'))).length =
      (GOOD_KEYWORDS.filter (fun g => containsSub g (lower t))).length)
    (hb : (BAD_KEYWORDS.filter (fun b => containsSub b (lower t'))).length =
      (BAD_KEYWORDS.filter (fun b => containsSub b (lower t))).length + 1) :
    score_raw t' c = score_raw t c - 1/4 ∧
    score_result t' c ≤ score_result t c ∧
    (1/4 ≤ score_raw t c → score_raw t c ≤ 1 →
      score_result t' c = score_result t c - 1/4) := by
  have hraw : score_raw t' c = score_raw t c - 1/4 := by
    unfold score_raw
    rw [hg, hb]
    push_cast
    ring
  refine ⟨hraw, ?_, ?_⟩
  · unfold score_result
    rw [hraw]
    exact max_le_max le_rfl (min_le_min le_rfl (by linarith))
  · intro hlo hhi
    unfold score_result
    rw [hraw]
    rw [min_eq_right hhi, min_eq_right (by linarith : score_raw t c - 1/4 ≤ 1)]
    rw [max_eq_right (by linarith : (0:ℚ) ≤ score_raw t c),
      max_eq_right (by linarith : (0:ℚ) ≤ score_raw t c - 1/4)]

/-- Witness for C6 amended: adding interview to the title podium on an
unknown channel drops the score from 0.58 to 0.33, exactly 0.25. -/
theorem score_bad_keyword_penalty_witness :
    (GOOD_KEYWORDS.filter (fun g => containsSub g (lower "podium interview".data))).length =
      (GOOD_KEYWORDS.filter (fun g => containsSub g (lower "podium".data))).length ∧
    (BAD_KEYWORDS.filter (fun b => containsSub b (lower "podium interview".data))).length =
      (BAD_KEYWORDS.filter (fun b => containsSub b (lower "podium".data))).length + 1 ∧
    (score_raw "podium interview".data [] = score_raw "podium".data [] - 1/4 ∧
     score_result "podium interview".data [] ≤ score_result "podium".data [] ∧
     (1/4 ≤ score_raw "podium".data [] → score_raw "podium".data [] ≤ 1 →
       score_result "podium interview".data [] = score_result "podium".data [] - 1/4)) :=
  ⟨by decide, by decide,
   score_bad_keyword_penalty "podium".data "podium interview".data []
     (by decide) (by decide)⟩

-- ==========================================================================
-- C8: quote detection returns the first, not the longest, long span
-- ==========================================================================

/-- C8 counterexample: on a text with a 20-character quoted span followed by
a 30-character quoted span, detect_quote returns the first span, while the
longest-span rule of the spec selects the second; the two results differ. -/
theorem detect_quote_not_longest_cex :
    (detect_quote TWO_QUOTES_TEXT).2 = some "AAAAAAAAAAAAAAAAAAAA".data ∧
    spec_longest_quote TWO_QUOTES_TEXT = some "BBBBBBBBBBBBBBBBBBBBBBBBBBBBBB".data ∧
    ((paired_quote_spans TWO_QUOTES_TEXT).filter (fun p => 20 ≤ p.length)) =
      ["AAAAAAAAAAAAAAAAAAAA".data, "BBBBBBBBBBBBBBBBBBBBBBBBBBBBBB".data] ∧
    (detect_quote TWO_QUOTES_TEXT).2 ≠ spec_longest_quote TWO_QUOTES_TEXT := by
  refine ⟨by decide, by decide, by decide, by decide⟩

/-- C8 amended: detect_quote extracts the first double-quoted span of at
least twenty characters in the scan order of the quote regex; every span
attempted before it is shorter than twenty characters, and nothing makes the
returned span the longest one. -/
theorem detect_quote_first_long_span (text q : Chars)
    (h : (detect_quote text).2 = some q) :
    20 ≤ q.length ∧ ∃ l1 l2, quote_attempts text = l1 ++ q :: l2 ∧
      ∀ p ∈ l1, p.length < 20 := by
  simp only [detect_quote, detect_quote_span] at h
  obtain ⟨hp, l1, l2, heq, hall⟩ := find?_eq_some_split _ _ _ h
  refine ⟨by simpa using hp, l1, l2, heq, ?_⟩
  intro p hp1
  have h2 : ¬(20 ≤ p.length) := by simpa using hall p hp1
  omega

/-- Witness for C8 amended at the two-quote text. -/
theorem detect_quote_first_long_span_witness :
    (detect_quote TWO_QUOTES_TEXT).2 = some "AAAAAAAAAAAAAAAAAAAA".data ∧
    (20 ≤ "AAAAAAAAAAAAAAAAAAAA".data.length ∧
     ∃ l1 l2, quote_attempts TWO_QUOTES_TEXT =
       l1 ++ "AAAAAAAAAAAAAAAAAAAA".data :: l2 ∧ ∀ p ∈ l1, p.length < 20) :=
  ⟨by decide,
   detect_quote_first_long_span TWO_QUOTES_TEXT "AAAAAAAAAAAAAAAAAAAA".data (by decide)⟩

-- ==========================================================================
-- C9: what a backend search returns on failure
-- ==========================================================================

/-- The url accumulation of the try block stops at the first malformed
photo, returning exactly the urls gathered before it. -/
lemma collect_urls_upto_malformed (ps : List Chars) (qs : List (Option Chars)) :
    collect_urls (ps.map some ++ none :: qs) = ps := by
  induction ps with
  | nil => rfl
  | cons a as ih => simp [collect_urls, ih]

/-- C9 counterexample: a response whose second photo is malformed is a
malformed response, yet search_images_pexels returns the non-empty prefix
of urls appended before the exception was raised — the except handler runs
after the first append — not the empty list the claim requires. -/
theorem malformed_response_nonempty_cex :
    search_images_pexels (some "key".data) (some [some "u1".data, none]) =
      ⟨true, ["u1".data]⟩ ∧
    (search_images_pexels (some "key".data)
      (some [some "u1".data, none])).urls ≠ [] :=
  ⟨rfl, by decide⟩

/-- C9 amended: for the image search, missing credentials yield an empty
list with no network request issued; a raised request or decode and an
empty photos array yield an empty list; and a response whose photo k+1 is
malformed yields exactly the k urls accumulated before the exception — the
empty list when the first photo is malformed, a non-empty prefix otherwise.
The except handler returns this prefix instead of raising, which the
totality of the embedding over the oracle models.  For the YouTube search,
a failed or empty yt-dlp run (stdout without the field separator) yields an
empty list; that function has no exception handler of its own, so no
never-raises guarantee is stated for it. -/
theorem backend_failure_prefix_list :
    (∀ response, search_images_pexels none response = ⟨false, []⟩) ∧
    (∀ key, search_images_pexels (some key) none = ⟨true, []⟩) ∧
    (∀ key, search_images_pexels (some key) (some []) = ⟨true, []⟩) ∧
    (∀ key (ps : List Chars) (qs : List (Option Chars)),
      search_images_pexels (some key) (some (ps.map some ++ none :: qs)) =
        ⟨true, ps⟩) ∧
    (∀ lines, (∀ l ∈ lines, containsSub YT_SEP l = false) →
      search_youtube_enhanced lines = []) := by
  refine ⟨fun _ => rfl, fun _ => rfl, fun _ => rfl, ?_, ?_⟩
  · intro key ps qs
    simp only [search_images_pexels]
    rw [collect_urls_upto_malformed]
  · intro lines h
    unfold search_youtube_enhanced
    have hfm : lines.filterMap yt_parse_line = [] := by
      rw [List.filterMap_eq_nil_iff]
      intro l hl
      simp [yt_parse_line, h l hl]
    rw [hfm]
    simp [List.mergeSort]

/-- Witness for C9 amended at concrete failure inputs, among them a second
photo malformed after one accumulated url. -/
theorem backend_failure_prefix_list_witness :
    search_images_pexels none (some [some "u1".data]) = ⟨false, []⟩ ∧
    search_images_pexels (some "key".data) none = ⟨true, []⟩ ∧
    search_images_pexels (some "key".data) (some []) = ⟨true, []⟩ ∧
    search_images_pexels (some "key".data)
      (some (["u1".data].map some ++ none :: [some "u2".data])) = ⟨true, ["u1".data]⟩ ∧
    (∀ l ∈ [("ERROR: unable to download webpage").data], containsSub YT_SEP l = false) ∧
    search_youtube_enhanced [("ERROR: unable to download webpage").data] = [] :=
  ⟨backend_failure_prefix_list.1 _, backend_failure_prefix_list.2.1 _,
   backend_failure_prefix_list.2.2.1 _,
   backend_failure_prefix_list.2.2.2.1 _ _ _,
   by decide,
   backend_failure_prefix_list.2.2.2.2 _ (by decide)⟩

-- ==========================================================================
-- C10: every routing branch returns a non-empty query list
-- ==========================================================================

/-- C10: for every input segment and either setting of the generated-scene
flag, the routing decision carries at least one search query: each branch
substitutes its built-in generic queries when no entity-derived or override
query exists. -/
theorem route_search_queries_nonempty (segment : Segment) (v : Bool) :
    (route_visual segment v).search_queries ≠ [] := by
  have hnq : (route_visual_nonquote segment v).search_queries ≠ [] := by
    unfold route_visual_nonquote
    split
    · exact pyOr_ne_nil _ _ (by simp)
    · split
      · exact pyOr_ne_nil _ _ (by simp)
      · split
        · exact pyOr_ne_nil _ _ (by simp)
        · split
          · exact pyOr_ne_nil _ _ (by simp)
          · exact pyOr_ne_nil _ _ (by simp)
  unfold route_visual
  split
  · simp
  · exact hnq

end F1
